import Mathlib

/-!
Verification of the go-blizzard client library core: region resolution,
client host/namespace state, the shared GET request executor, and the
OAuth token lifecycle (acquisition and expiry-driven refresh).

Times are modelled as `Int` nanoseconds since an epoch, matching Go's
`time.Time`/`time.Duration` arithmetic (a `Duration` is an `int64` count
of nanoseconds, and `t.Sub(u)` is the nanosecond difference).
Byte strings are modelled as `List Nat`.
-/

namespace Blizzard

/-! ## Region resolution -/

/-- The string table of `Region.String`: `rr = ["", "us", "eu", "kr", "tw", "cn"]`,
indexed by the integer region value (`US=1, EU=2, KR=3, TW=4, CN=5`). -/
def regionTable : List String := ["", "us", "eu", "kr", "tw", "cn"]

/-- `Region.String`: Go evaluates `rr[region]`, which panics when the index is
negative or at least `len(rr) = 6`; a panic is modelled as `none`. -/
def regionString (r : Int) : Option String :=
  if 0 ≤ r then regionTable.get? r.toNat else none

/-- The region/host/namespace fields of the Go `Client` struct (`part_001`),
together with the locale and the derived `cfg.TokenURL`. Credentials and the
HTTP transport are outside this fragment. -/
structure ClientR where
  oauthHost : String
  apiHost : String
  dynamicNamespace : String
  staticNamespace : String
  profileNamespace : String
  dynamicClassicNamespace : String
  staticClassicNamespace : String
  region : Int
  locale : String
  tokenURL : String
deriving DecidableEq

/-- `Client.SetRegion`: stores the region and recomputes hosts and the five
namespaces; the `CN` (= 5) case uses the China-specific hosts and the `-zh`
suffix, every other case formats with `region.String()` (so an index outside
the table panics, modelled as `none`). Also recomputes `cfg.TokenURL`. -/
def SetRegion (region : Int) (c : ClientR) : Option ClientR :=
  if region = 5 then
    some { c with
      region := region
      oauthHost := "https://www.battlenet.com.cn"
      apiHost := "https://gateway.battlenet.com.cn"
      dynamicNamespace := "dynamic-zh"
      dynamicClassicNamespace := "dynamic-classic-zh"
      profileNamespace := "profile-zh"
      staticNamespace := "static-zh"
      staticClassicNamespace := "static-classic-zh"
      tokenURL := "https://www.battlenet.com.cn/oauth/token" }
  else
    (regionString region).map fun code =>
      { c with
        region := region
        oauthHost := "https://" ++ code ++ ".battle.net"
        apiHost := "https://" ++ code ++ ".api.blizzard.com"
        dynamicNamespace := "dynamic-" ++ code
        dynamicClassicNamespace := "dynamic-classic-" ++ code
        profileNamespace := "profile-" ++ code
        staticNamespace := "static-" ++ code
        staticClassicNamespace := "static-classic-" ++ code
        tokenURL := "https://" ++ code ++ ".battle.net/oauth/token" }

/-- `Client.GetRegion`. -/
def GetRegion (c : ClientR) : Int := c.region

/-- `Client.GetOAuthHost`. -/
def GetOAuthHost (c : ClientR) : String := c.oauthHost

/-- `Client.GetAPIHost`. -/
def GetAPIHost (c : ClientR) : String := c.apiHost

/-- `Client.GetDynamicNamespace`. -/
def GetDynamicNamespace (c : ClientR) : String := c.dynamicNamespace

/-- `Client.GetDynamicClassicNamespace`. -/
def GetDynamicClassicNamespace (c : ClientR) : String := c.dynamicClassicNamespace

/-- `Client.GetProfileNamespace`. -/
def GetProfileNamespace (c : ClientR) : String := c.profileNamespace

/-- `Client.GetStaticNamespace`. -/
def GetStaticNamespace (c : ClientR) : String := c.staticNamespace

/-- `Client.GetStaticClassicNamespace`. -/
def GetStaticClassicNamespace (c : ClientR) : String := c.staticClassicNamespace

/-- A sequence of `SetRegion` calls applied in order (each call either
succeeds, replacing the state, or panics, modelled as `none`). -/
def applyRegions (c : ClientR) (rs : List Int) : Option ClientR :=
  rs.foldlM (fun a r => SetRegion r a) c

/-! ## The request executor (`getStructData` and its variants) -/

/-- The observable outcome of issuing the HTTP GET built by `getStructData`:
the transport fails (`client.Do` returns an error), reading the body fails
(`ioutil.ReadAll` returns an error), or a response arrives with a numeric
status code, a status text (e.g. "404 Not Found"), and a fully read body. -/
inductive HTTPOutcome where
  | transportErr : HTTPOutcome
  | readErr : HTTPOutcome
  | ok (statusCode : Nat) (status : String) (body : List Nat) : HTTPOutcome
deriving DecidableEq

/-- The error kinds `getStructData` can return: a transport error, a body-read
error, `errors.New(res.Status)` for a non-200 status, or a `json.Unmarshal`
failure. -/
inductive ReqError where
  | transport : ReqError
  | readBody : ReqError
  | httpStatus (status : String) : ReqError
  | decodeFail : ReqError
deriving DecidableEq

/-- `Client.getStructData` (response-processing part, shared verbatim by
`getStructDataNoLocale` and `getStructDataOAuth`): on transport or read
failure return `(dat, nil, err)`; on a non-200 status return
`(dat, body, errors.New(res.Status))` without decoding; on 200 decode the
body into `dat`, returning the decode error (with the body) if it fails,
else the decoded value with the body. JSON decoding into the destination
type is abstracted as `decode`. -/
def getStructData {V : Type} (decode : List Nat → Option V) (dat : V)
    (res : HTTPOutcome) : V × Option (List Nat) × Option ReqError :=
  match res with
  | .transportErr => (dat, none, some .transport)
  | .readErr => (dat, none, some .readBody)
  | .ok statusCode status body =>
      if statusCode ≠ 200 then (dat, some body, some (.httpStatus status))
      else
        match decode body with
        | none => (dat, some body, some .decodeFail)
        | some v => (v, some body, none)

/-- From the spec's words (for C4): the raw bytes that were available in a
given outcome — none when the transport or the body read failed, the full
body once it was read. -/
def specBytesAvailable : HTTPOutcome → Option (List Nat)
  | .transportErr => none
  | .readErr => none
  | .ok _ _ body => some body

/-! ## OAuth token lifecycle (`oauth.go`) -/

/-- Modelled from the spec: the `oauth.AccessTokenRequest` struct lives in the
repository's `oauth` package, which is not among the provided sources; per the
spec the token-endpoint response carries the JSON fields `access_token`,
`token_type`, `expires_in` (seconds, an integer) and `scope`. -/
structure AccessTokenRequest where
  accessToken : String
  tokenType : String
  expiresIn : Int
  scope : String
deriving DecidableEq

/-- The `OAuth` struct of `oauth.go`: credentials, the most recently stored
token response, and the computed expiry instant (`time.Time`, modelled as
`Int` nanoseconds). -/
structure OAuth where
  clientID : String
  clientSecret : String
  accessTokenRequest : AccessTokenRequest
  expiresAt : Int
deriving DecidableEq

/-- The oauth-relevant fields of the Go `Client`. -/
structure ClientO where
  oauth : OAuth
  oauthURL : String
deriving DecidableEq

/-- A JSON scalar, as far as the token payload's typed fields care: a string
or an integer number. -/
inductive JsonVal where
  | str (s : String) : JsonVal
  | num (n : Int) : JsonVal
deriving DecidableEq

/-- The bytes of a token-endpoint response body, as `json.Unmarshal` sees
them: either not syntactically valid JSON at all (`checkValid` fails before
any field of the target is written), or a valid object given as its fields in
order. -/
inductive TokenBody where
  | invalid : TokenBody
  | obj (fields : List (String × JsonVal)) : TokenBody
deriving DecidableEq

/-- The observable outcome of the POST issued by `AccessTokenReq`: transport
failure, body-read failure, or a body handed to `json.Unmarshal`. -/
inductive TokenOutcome where
  | netErr : TokenOutcome
  | readErr : TokenOutcome
  | body (b : TokenBody) : TokenOutcome
deriving DecidableEq

/-- The error kinds `AccessTokenReq` can return. -/
inductive TokenError where
  | network : TokenError
  | readBody : TokenError
  | malformed : TokenError
  | typeMismatch : TokenError
deriving DecidableEq

/-- One step of `json.Unmarshal` into `oauth.AccessTokenRequest`: a known key
with the right scalar shape sets the field; a known key with the wrong shape
records an `UnmarshalTypeError` and leaves the field alone; unknown keys are
ignored. -/
def setTokenField (a : AccessTokenRequest) : String × JsonVal → AccessTokenRequest × Bool
  | ("access_token", .str v) => ({ a with accessToken := v }, false)
  | ("access_token", .num _) => (a, true)
  | ("token_type", .str v) => ({ a with tokenType := v }, false)
  | ("token_type", .num _) => (a, true)
  | ("scope", .str v) => ({ a with scope := v }, false)
  | ("scope", .num _) => (a, true)
  | ("expires_in", .num n) => ({ a with expiresIn := n }, false)
  | ("expires_in", .str _) => (a, true)
  | (_, _) => (a, false)

/-- `json.Unmarshal(b, &c.oauth.AccessTokenRequest)` on a syntactically valid
object: fields are processed in order, writing into the target in place; on a
type mismatch the error is saved and decoding continues with the remaining
fields (Go's documented `UnmarshalTypeError` behaviour), so an error can be
returned with the target already mutated. -/
def unmarshalAccessTokenRequest (a : AccessTokenRequest) :
    List (String × JsonVal) → AccessTokenRequest × Bool
  | [] => (a, false)
  | f :: fs =>
      let p := setTokenField a f
      let q := unmarshalAccessTokenRequest p.1 fs
      (q.1, p.2 || q.2)

/-- `Client.AccessTokenReq` at the instant `now`: POST the grant request; on
transport or read failure return the error with the state untouched; otherwise
unmarshal the body in place into `c.oauth.AccessTokenRequest` and, only when
that succeeded, set `c.oauth.ExpiresAt` to `now` plus `ExpiresIn` seconds
(the source calls `time.Now()` again here; both instants are modelled by the
single parameter `now`). -/
def AccessTokenReq (now : Int) (c : ClientO) (res : TokenOutcome) :
    ClientO × Option TokenError :=
  match res with
  | .netErr => (c, some .network)
  | .readErr => (c, some .readBody)
  | .body .invalid => (c, some .malformed)
  | .body (.obj fs) =>
      let p := unmarshalAccessTokenRequest c.oauth.accessTokenRequest fs
      let c1 : ClientO := { c with oauth := { c.oauth with accessTokenRequest := p.1 } }
      if p.2 then (c1, some .typeMismatch)
      else ({ c1 with oauth := { c1.oauth with
                expiresAt := now + p.1.expiresIn * 1000000000 } }, none)

/-- `Client.updateAccessTokenIfExp` at the instant `now`: refresh when
`c.oauth.ExpiresAt.Sub(now) < 60` — the bare constant `60` is a
`time.Duration` of 60 NANOSECONDS, so the comparison is in nanoseconds.
The third component counts the token requests performed (0 or 1). -/
def updateAccessTokenIfExp (now : Int) (c : ClientO) (res : TokenOutcome) :
    ClientO × Option TokenError × Nat :=
  if c.oauth.expiresAt - now < 60 then
    let p := AccessTokenReq now c res
    (p.1, p.2, 1)
  else (c, none, 0)

/-! ## Concrete sample states -/

/-- A concrete stored token. -/
def sampleToken : AccessTokenRequest :=
  { accessToken := "tok", tokenType := "bearer", expiresIn := 0, scope := "" }

/-- A concrete client whose stored token expires at t = 100 s. -/
def sampleClientO : ClientO :=
  { oauth := { clientID := "id", clientSecret := "secret",
               accessTokenRequest := sampleToken,
               expiresAt := 100000000000 },
    oauthURL := "https://us.battle.net" }

/-- A concrete client whose stored token expires at t = 60 s. -/
def staleClientO : ClientO :=
  { oauth := { clientID := "id", clientSecret := "secret",
               accessTokenRequest := sampleToken,
               expiresAt := 60000000000 },
    oauthURL := "https://us.battle.net" }

/-- A token response that is valid JSON but gives `expires_in` as a string:
`json.Unmarshal` writes `access_token` and then saves a type error. -/
def mismatchBody : TokenBody :=
  .obj [("access_token", .str "evil"), ("expires_in", .str "oops")]

/-- A fresh client record (zero region, nothing resolved yet). -/
def emptyClientR : ClientR :=
  { oauthHost := "", apiHost := "", dynamicNamespace := "", staticNamespace := "",
    profileNamespace := "", dynamicClassicNamespace := "", staticClassicNamespace := "",
    region := 0, locale := "en_US", tokenURL := "" }

/-- A fresh client record with a German locale. -/
def germanClientR : ClientR := { emptyClientR with locale := "de_DE" }

/-- The client record produced by `SetRegion US` on `emptyClientR`. -/
def usClientR : ClientR :=
  { emptyClientR with
    region := 1, oauthHost := "https://us.battle.net",
    apiHost := "https://us.api.blizzard.com",
    dynamicNamespace := "dynamic-us", dynamicClassicNamespace := "dynamic-classic-us",
    profileNamespace := "profile-us", staticNamespace := "static-us",
    staticClassicNamespace := "static-classic-us",
    tokenURL := "https://us.battle.net/oauth/token" }

/-- The client record produced by `SetRegion US` on `germanClientR`. -/
def usClientRde : ClientR := { usClientR with locale := "de_DE" }

/-! ## Helper lemmas -/

/-- A region value outside `0..5` indexes outside the six-entry string table. -/
theorem regionString_out_eq_none (r : Int) (h : r < 0 ∨ 5 < r) :
    regionString r = none := by
  unfold regionString
  rcases h with h | h
  · rw [if_neg (by omega)]
  · rw [if_pos (by omega)]
    have h6 : regionTable.length ≤ r.toNat := by
      simp only [regionTable, List.length]
      omega
    exact List.get?_eq_none.mpr h6

/-- When two `SetRegion` calls with the same region both succeed, the
resulting region, hosts, and namespaces agree: they are derived from the
region alone. -/
theorem setRegion_accessors_determined (r : Int) (m d cr dr : ClientR)
    (h1 : SetRegion r m = some cr) (h2 : SetRegion r d = some dr) :
    GetRegion cr = GetRegion dr ∧ GetOAuthHost cr = GetOAuthHost dr ∧
    GetAPIHost cr = GetAPIHost dr ∧
    GetDynamicNamespace cr = GetDynamicNamespace dr ∧
    GetDynamicClassicNamespace cr = GetDynamicClassicNamespace dr ∧
    GetProfileNamespace cr = GetProfileNamespace dr ∧
    GetStaticNamespace cr = GetStaticNamespace dr ∧
    GetStaticClassicNamespace cr = GetStaticClassicNamespace dr := by
  unfold SetRegion at h1 h2
  by_cases h5 : r = 5
  · rw [if_pos h5] at h1 h2
    injection h1 with h1
    injection h2 with h2
    subst h1
    subst h2
    exact ⟨rfl, rfl, rfl, rfl, rfl, rfl, rfl, rfl⟩
  · rw [if_neg h5] at h1 h2
    cases hc : regionString r with
    | none =>
        rw [hc] at h1
        exact Option.noConfusion h1
    | some code =>
        rw [hc] at h1 h2
        injection h1 with h1
        injection h2 with h2
        subst h1
        subst h2
        exact ⟨rfl, rfl, rfl, rfl, rfl, rfl, rfl, rfl⟩

/-! ## Theorems -/

/-- C3: `updateAccessTokenIfExp` called at an instant `now` strictly earlier
than `expiresAt` minus a 60-second skew performs no token request and returns
the client state unchanged with no error, whatever the network would have
answered. -/
theorem updateIfExp_fresh_no_request (now : Int) (c : ClientO) (res : TokenOutcome)
    (h : now < c.oauth.expiresAt - 60 * 1000000000) :
    updateAccessTokenIfExp now c res = (c, none, 0) := by
  unfold updateAccessTokenIfExp
  have hc : ¬ c.oauth.expiresAt - now < 60 := by omega
  simp [hc]

/-- C3 witness: at `now = 0` the sample client's token expires 100 s later,
beyond the 60-second skew, and the call is a no-op. -/
theorem updateIfExp_fresh_no_request_witness :
    (0 : Int) < sampleClientO.oauth.expiresAt - 60 * 1000000000 ∧
    updateAccessTokenIfExp 0 sampleClientO .netErr = (sampleClientO, none, 0) :=
  ⟨by decide, updateIfExp_fresh_no_request 0 sampleClientO .netErr (by decide)⟩

/-- C1: at `now = 30 s` the stale client's token expires 30 s later, so a
correctly-typed 60-second skew demands a refresh (`now ≥ expiresAt - 60 s`),
yet the code performs zero token requests: its comparison
`ExpiresAt.Sub(now) < 60` is against 60 nanoseconds, not 60 seconds. -/
theorem updateIfExp_within_skew_no_request :
    (30000000000 : Int) ≥ staleClientO.oauth.expiresAt - 60 * 1000000000 ∧
    (updateAccessTokenIfExp 30000000000 staleClientO
        (.body (.obj [("access_token", .str "new"),
                      ("expires_in", .num 1000)]))).2.2 = 0 :=
  ⟨by decide, by decide⟩

/-- C4: on every outcome — transport failure, body-read failure, non-200
status, decode failure, success — `getStructData` returns exactly the raw
bytes that were available in that outcome alongside its value and error. -/
theorem getStructData_returns_raw {V : Type} (decode : List Nat → Option V)
    (dat : V) (res : HTTPOutcome) :
    (getStructData decode dat res).2.1 = specBytesAvailable res := by
  cases res with
  | transportErr => rfl
  | readErr => rfl
  | ok statusCode status body =>
      by_cases h : statusCode = 200
      · subst h
        cases hd : decode body <;> simp [getStructData, specBytesAvailable, hd]
      · simp [getStructData, specBytesAvailable, h]

/-- C5: on any response whose status code is not 200, `getStructData` returns
the raw body together with the error carrying the HTTP status text, and the
result does not depend on the JSON decoder at all (decoding is attempted only
on a 200 response). -/
theorem getStructData_non200_status_error {V : Type}
    (decode decode2 : List Nat → Option V) (dat : V)
    (statusCode : Nat) (status : String) (body : List Nat)
    (h : statusCode ≠ 200) :
    getStructData decode dat (.ok statusCode status body)
        = (dat, some body, some (.httpStatus status)) ∧
    getStructData decode dat (.ok statusCode status body)
        = getStructData decode2 dat (.ok statusCode status body) := by
  constructor <;> simp [getStructData, h]

/-- C5 witness: a 404 response with status text "404 Not Found" yields that
status error and the body unchanged, for two decoders that disagree. -/
theorem getStructData_non200_status_error_witness :
    (404 ≠ 200 ∧
      getStructData (fun _ => none) 0 (.ok 404 "404 Not Found" [104, 105])
        = (0, some [104, 105], some (.httpStatus "404 Not Found")) ∧
      getStructData (fun _ => none) 0 (.ok 404 "404 Not Found" [104, 105])
        = getStructData (fun _ => some 7) 0 (.ok 404 "404 Not Found" [104, 105])) := by
  have h := getStructData_non200_status_error (fun _ => none) (fun _ => some 7)
    (0 : Nat) 404 "404 Not Found" [104, 105] (by decide)
  exact ⟨by decide, h.1, h.2⟩

/-- C6: on a 200 response whose body the decoder rejects, `getStructData`
returns the literal body bytes with the decode error, an error distinct from
every HTTP status error. -/
theorem getStructData_decode_error {V : Type} (decode : List Nat → Option V)
    (dat : V) (status : String) (body : List Nat)
    (h : decode body = none) :
    getStructData decode dat (.ok 200 status body)
        = (dat, some body, some .decodeFail) ∧
    ∀ s, ReqError.decodeFail ≠ ReqError.httpStatus s := by
  refine ⟨?_, fun s hs => ReqError.noConfusion hs⟩
  simp [getStructData, h]

/-- C6 witness: a 200 response whose body no decoder accepts yields the
decode error carrying the malformed bytes. -/
theorem getStructData_decode_error_witness :
    ((fun (_ : List Nat) => (none : Option Nat)) [123] = none ∧
      getStructData (fun _ => (none : Option Nat)) 0 (.ok 200 "200 OK" [123])
        = (0, some [123], some .decodeFail) ∧
      ∀ s, ReqError.decodeFail ≠ ReqError.httpStatus s) := by
  have h := getStructData_decode_error (fun _ => (none : Option Nat)) 0 "200 OK" [123] rfl
  exact ⟨rfl, h.1, h.2⟩

/-- C2 counterexample: a refresh against `staleClientO` whose payload is valid
JSON with a wrongly-typed `expires_in` fails (`json.Unmarshal` returns an
error), yet the stored access token has already been overwritten in place from
"tok" to "evil": the failed refresh partially mutates the stored token. -/
theorem accessTokenReq_fail_partial_mutation :
    (AccessTokenReq 0 staleClientO (.body mismatchBody)).2 = some .typeMismatch ∧
    (AccessTokenReq 0 staleClientO
        (.body mismatchBody)).1.oauth.accessTokenRequest.accessToken = "evil" ∧
    staleClientO.oauth.accessTokenRequest.accessToken = "tok" :=
  ⟨rfl, rfl, rfl⟩

/-- C2 amended: when a refresh fails the error is surfaced and the stored
expiry is never modified, and on a network failure, a body-read failure, or a
syntactically invalid payload the whole client state is untouched; only a
well-formed payload with a wrongly-typed field can leave the stored token
fields partially overwritten. -/
theorem accessTokenReq_fail_expiry_unchanged (now : Int) (c : ClientO)
    (res : TokenOutcome) (h : (AccessTokenReq now c res).2.isSome = true) :
    (AccessTokenReq now c res).1.oauth.expiresAt = c.oauth.expiresAt ∧
    (res = .netErr ∨ res = .readErr ∨ res = .body .invalid →
      (AccessTokenReq now c res).1 = c) := by
  cases res with
  | netErr => exact ⟨rfl, fun _ => rfl⟩
  | readErr => exact ⟨rfl, fun _ => rfl⟩
  | body b =>
      cases b with
      | invalid => exact ⟨rfl, fun _ => rfl⟩
      | obj fs =>
          cases hp : (unmarshalAccessTokenRequest c.oauth.accessTokenRequest fs).2 with
          | true =>
              constructor
              · simp [AccessTokenReq, hp]
              · rintro (h1 | h1 | h1) <;> simp at h1
          | false =>
              exfalso
              simp [AccessTokenReq, hp] at h

/-- C2 amended witness: a network failure at the sample client surfaces an
error, keeps the expiry, and leaves the state untouched. -/
theorem accessTokenReq_fail_expiry_unchanged_witness :
    (AccessTokenReq 0 sampleClientO .netErr).2.isSome = true ∧
    (AccessTokenReq 0 sampleClientO .netErr).1.oauth.expiresAt
        = sampleClientO.oauth.expiresAt ∧
    (AccessTokenReq 0 sampleClientO .netErr).1 = sampleClientO := by
  have h := accessTokenReq_fail_expiry_unchanged 0 sampleClientO .netErr rfl
  exact ⟨rfl, h.1, h.2 (Or.inl rfl)⟩

/-- C7: for each of the four non-China regions `US=1, EU=2, KR=3, TW=4` with
its lowercase code, `SetRegion` resolves the battle.net and api.blizzard.com
hosts and the five namespaces from the code; and `SetRegion CN` resolves the
China-specific hosts and the five `-zh` namespaces. -/
theorem setRegion_standard_and_china (c : ClientR) (r : Int) (code : String)
    (h : (r, code) ∈ [((1 : Int), "us"), (2, "eu"), (3, "kr"), (4, "tw")]) :
    (regionString r = some code ∧
      (SetRegion r c).map GetOAuthHost = some ("https://" ++ code ++ ".battle.net") ∧
      (SetRegion r c).map GetAPIHost = some ("https://" ++ code ++ ".api.blizzard.com") ∧
      (SetRegion r c).map GetDynamicNamespace = some ("dynamic-" ++ code) ∧
      (SetRegion r c).map GetDynamicClassicNamespace = some ("dynamic-classic-" ++ code) ∧
      (SetRegion r c).map GetProfileNamespace = some ("profile-" ++ code) ∧
      (SetRegion r c).map GetStaticNamespace = some ("static-" ++ code) ∧
      (SetRegion r c).map GetStaticClassicNamespace = some ("static-classic-" ++ code)) ∧
    ((SetRegion 5 c).map GetOAuthHost = some "https://www.battlenet.com.cn" ∧
      (SetRegion 5 c).map GetAPIHost = some "https://gateway.battlenet.com.cn" ∧
      (SetRegion 5 c).map GetDynamicNamespace = some "dynamic-zh" ∧
      (SetRegion 5 c).map GetDynamicClassicNamespace = some "dynamic-classic-zh" ∧
      (SetRegion 5 c).map GetProfileNamespace = some "profile-zh" ∧
      (SetRegion 5 c).map GetStaticNamespace = some "static-zh" ∧
      (SetRegion 5 c).map GetStaticClassicNamespace = some "static-classic-zh") := by
  simp only [List.mem_cons, List.not_mem_nil, or_false, Prod.mk.injEq] at h
  rcases h with ⟨rfl, rfl⟩ | ⟨rfl, rfl⟩ | ⟨rfl, rfl⟩ | ⟨rfl, rfl⟩ <;>
    exact ⟨⟨rfl, rfl, rfl, rfl, rfl, rfl, rfl, rfl⟩,
           rfl, rfl, rfl, rfl, rfl, rfl, rfl⟩

/-- C7 witness: region `US = 1` with code "us". -/
theorem setRegion_standard_and_china_witness :
    ((1 : Int), "us") ∈ [((1 : Int), "us"), (2, "eu"), (3, "kr"), (4, "tw")] ∧
    regionString 1 = some "us" ∧
    (SetRegion 1 emptyClientR).map GetAPIHost
        = some ("https://" ++ "us" ++ ".api.blizzard.com") ∧
    (SetRegion 5 emptyClientR).map GetStaticNamespace = some "static-zh" := by
  have h := setRegion_standard_and_china emptyClientR 1 "us" (by decide)
  exact ⟨by decide, h.1.1, h.1.2.2.1, h.2.2.2.2.2.2.1⟩

/-- C8 counterexample: `SetRegion 0` does not fail: it succeeds and silently
resolves hosts containing an empty region code. -/
theorem setRegion_zero_silently_resolves :
    (SetRegion 0 emptyClientR).isSome = true ∧
    (SetRegion 0 emptyClientR).map GetOAuthHost = some "https://.battle.net" ∧
    (SetRegion 0 emptyClientR).map GetAPIHost = some "https://.api.blizzard.com" :=
  ⟨rfl, rfl, rfl⟩

/-- C8 amended: region resolution applied to an unrecognized region value
(outside `0..5`) fails — the string table lookup panics — and never produces a
host; but the zero region is not rejected: it silently resolves to hosts with
an empty region code. -/
theorem setRegion_unrecognized_fails (c : ClientR) (r : Int) (h : r < 0 ∨ 5 < r) :
    SetRegion r c = none ∧
    (SetRegion 0 c).map GetOAuthHost = some "https://.battle.net" := by
  refine ⟨?_, rfl⟩
  unfold SetRegion
  rw [if_neg (by omega : ¬ r = 5), regionString_out_eq_none r h]
  rfl

/-- C8 amended witness: region 6 fails, region 0 silently resolves. -/
theorem setRegion_unrecognized_fails_witness :
    ((6 : Int) < 0 ∨ 5 < (6 : Int)) ∧
    SetRegion 6 emptyClientR = none ∧
    (SetRegion 0 emptyClientR).map GetOAuthHost = some "https://.battle.net" := by
  have h := setRegion_unrecognized_fails emptyClientR 6 (Or.inr (by decide))
  exact ⟨Or.inr (by decide), h.1, h.2⟩

/-- C9: after any sequence of `SetRegion` calls ending with `SetRegion r`,
every host and namespace accessor (and the stored region) agrees with what
`SetRegion r` produces on any client: the fields are consistent with the most
recently set region. -/
theorem setRegion_last_write_consistent (c d cr dr : ClientR) (rs : List Int)
    (r : Int) (h1 : applyRegions c (rs ++ [r]) = some cr)
    (h2 : SetRegion r d = some dr) :
    GetRegion cr = GetRegion dr ∧ GetOAuthHost cr = GetOAuthHost dr ∧
    GetAPIHost cr = GetAPIHost dr ∧
    GetDynamicNamespace cr = GetDynamicNamespace dr ∧
    GetDynamicClassicNamespace cr = GetDynamicClassicNamespace dr ∧
    GetProfileNamespace cr = GetProfileNamespace dr ∧
    GetStaticNamespace cr = GetStaticNamespace dr ∧
    GetStaticClassicNamespace cr = GetStaticClassicNamespace dr := by
  induction rs generalizing c with
  | nil =>
      simp only [List.nil_append, applyRegions, List.foldlM_cons, List.foldlM_nil] at h1
      cases hs : SetRegion r c with
      | none => rw [hs] at h1; exact Option.noConfusion h1
      | some m =>
          rw [hs] at h1
          simp only [Option.bind_eq_bind, Option.some_bind] at h1
          injection h1 with h1
          subst h1
          exact setRegion_accessors_determined r c d m dr hs h2
  | cons a as ih =>
      simp only [List.cons_append, applyRegions, List.foldlM_cons] at h1
      cases hs : SetRegion a c with
      | none => rw [hs] at h1; exact Option.noConfusion h1
      | some m =>
          rw [hs] at h1
          simp only [Option.bind_eq_bind, Option.some_bind] at h1
          exact ih m h1

/-- C9 witness: setting EU then US on a fresh client and setting US directly
on a German-locale client yield the same hosts and namespaces. -/
theorem setRegion_last_write_consistent_witness :
    applyRegions emptyClientR ([2] ++ [1]) = some usClientR ∧
    SetRegion 1 germanClientR = some usClientRde ∧
    GetOAuthHost usClientR = GetOAuthHost usClientRde ∧
    GetStaticNamespace usClientR = GetStaticNamespace usClientRde := by
  have h1 : applyRegions emptyClientR ([2] ++ [1]) = some usClientR := by decide
  have h2 : SetRegion 1 germanClientR = some usClientRde := by decide
  have h := setRegion_last_write_consistent emptyClientR germanClientR usClientR
    usClientRde [2] 1 h1 h2
  exact ⟨h1, h2, h.2.1, h.2.2.2.2.2.2.1⟩

/-- C10: `Region.String` is well-defined exactly on `0..5`: every region
value above 5 or below 0 indexes outside the six-entry table and panics
(no string is produced), and `SetRegion` — the public interface formatting
with it — panics there too; every value in `0..5` does produce a string. -/
theorem regionString_out_of_range (r : Int) (c : ClientR) (h : r < 0 ∨ 5 < r) :
    regionString r = none ∧ SetRegion r c = none ∧
    regionString 0 = some "" ∧ regionString 1 = some "us" ∧
    regionString 2 = some "eu" ∧ regionString 3 = some "kr" ∧
    regionString 4 = some "tw" ∧ regionString 5 = some "cn" := by
  refine ⟨regionString_out_eq_none r h, ?_, rfl, rfl, rfl, rfl, rfl, rfl⟩
  unfold SetRegion
  rw [if_neg (by omega : ¬ r = 5), regionString_out_eq_none r h]
  rfl

/-- C10 witness: region 6 indexes outside the table. -/
theorem regionString_out_of_range_witness :
    ((6 : Int) < 0 ∨ 5 < (6 : Int)) ∧
    regionString 6 = none ∧ SetRegion 6 emptyClientR = none := by
  have h := regionString_out_of_range 6 emptyClientR (Or.inr (by decide))
  exact ⟨Or.inr (by decide), h.1, h.2.1⟩

end Blizzard
